import Mathlib

/-!
Verification of the terminal pomodoro application (src/main.py).

The file shallowly embeds the program's state and operations:

* `Task` models the task dict built in `PomodoroApp.add_task`
  (keys title / description / duration / language / status; statuses are the
  string literals the program actually assigns).
* `TimerThread` models the object of class `TimerThread`: `duration` is the
  seconds value stored by `__init__` (minutes * 60), `stopRequested` the
  `_stop_event` flag, `remaining` the local countdown variable of `run`, and
  `alive` the thread liveness queried by `is_alive()`.
* `AppState` models the mutable fields of `PomodoroApp` that the session loop
  reads and writes (`tasks`, `current_timer`, `current_option`,
  `current_language`), plus `lastDisplayed`, the remaining value most recently
  drawn by `display_timer`.
* `handleEv` models one turn of the `run` loop (lines 267-294) for key events,
  and one scheduling step of the timer thread for the events `tick` (one
  iteration of the while loop in `TimerThread.run`) and `finish` (the loop
  exit, final callback and thread termination).
* `clockLoop` is a finer-grained model of `TimerThread.run` alone, used for the
  tick-after-stop questions: the body is cut into atomic actions (loop check,
  callback, sleep, decrement, final check, final callback) numbered from 0,
  and `stopAt = some s` means the stop event becomes set just before atomic
  action number `s` executes (so action `i` observes the event iff `s ≤ i`).
* `visualize_data` models `PomodoroApp.visualize_data` over an explicit
  directory tree `YearFS`; a file whose read or date conversion raises (and is
  caught by the inner `except ... continue`) is modelled as `parsed = none`.
-/

namespace Pomodoro

/-- One task dict as created by `PomodoroApp.add_task`. -/
structure Task where
  title : String
  description : String
  duration : Int
  language : String
  status : String
deriving DecidableEq

/-- The `TimerThread` object: `duration` and `remaining` are in seconds
(`__init__` multiplies the minutes argument by 60); `stopRequested` is the
`_stop_event` flag set by `stop()`; `alive` is the thread liveness. -/
structure TimerThread where
  duration : Int
  stopRequested : Bool
  remaining : Int
  alive : Bool
deriving DecidableEq

/-- `TimerThread.__init__` followed by `start()`: stores `duration * 60`
seconds and begins `run()` with `remaining = self.duration`. -/
def TimerThread.init (minutes : Int) : TimerThread :=
  { duration := minutes * 60, stopRequested := false,
    remaining := minutes * 60, alive := true }

/-- Numeric value of a digit string. -/
def digitsVal (cs : List Char) : Int :=
  cs.foldl (fun a c => 10 * a + ((c.toNat - '0'.toNat : Nat) : Int)) 0

/-- Core of the model of Python `int(str)`: an optional sign followed by a
non-empty run of decimal digits (digit-group underscores are not modelled;
no input in the claims uses them). -/
def pyIntChars (cs : List Char) : Option Int :=
  match cs with
  | '+' :: rest =>
      if rest ≠ [] ∧ rest.all Char.isDigit = true then some (digitsVal rest) else none
  | '-' :: rest =>
      if rest ≠ [] ∧ rest.all Char.isDigit = true then some (-(digitsVal rest)) else none
  | _ =>
      if cs ≠ [] ∧ cs.all Char.isDigit = true then some (digitsVal cs) else none

/-- Model of Python `int(str)` as used at line 143: surrounding whitespace is
stripped, then sign and digits; `none` models the raised `ValueError`. -/
def pyInt (str : String) : Option Int :=
  pyIntChars (((str.toList.dropWhile Char.isWhitespace).reverse.dropWhile
    Char.isWhitespace).reverse)

/-- `self.menu_options` (lines 53-61). -/
def menuOptions : List String :=
  ["Add Task", "Start Timer", "Pause Timer", "Stop Timer", "View Tasks",
   "Visualize Data", "Exit"]

/-- `self.languages` (line 65). -/
def languages : List String :=
  ["Python", "Golang", "Java", "Rust"]

/-- The mutable fields of `PomodoroApp` read and written by the session loop,
plus the last value drawn by `display_timer`. -/
structure AppState where
  tasks : List Task
  timer : Option TimerThread
  currentOption : Nat
  currentLanguage : Nat
  lastDisplayed : Option Int
deriving DecidableEq

/-- `PomodoroApp.__init__`: empty task list, no timer, menu cursor and
language selector at 0, nothing displayed yet. -/
def initState : AppState :=
  { tasks := [], timer := none, currentOption := 0, currentLanguage := 0,
    lastDisplayed := none }

/-- `self.current_timer and self.current_timer.is_alive()` (line 163). -/
def timerAlive (s : AppState) : Bool :=
  match s.timer with
  | none => false
  | some t => t.alive

/-- `self.tasks[-1]["status"] = st`: update the status of the last task. -/
def setLastStatus : List Task → String → List Task
  | [], _ => []
  | [t], st => [{ t with status := st }]
  | t :: ts, st => t :: setLastStatus ts st

/-- Number of tasks whose status is the string "In Progress". -/
def countInProgress (s : AppState) : Nat :=
  s.tasks.countP (fun t => t.status == "In Progress")

/-- `PomodoroApp.add_task` (lines 137-157): parse the duration text with
`int`; on `ValueError` return with no task created; otherwise append a task
whose language is snapshotted from `self.languages[self.current_language]`
and whose status is "Not Started". (`save_to_csv` and the re-display touch no
session state.) -/
def add_task (s : AppState) (title desc durationText : String) : AppState :=
  match pyInt durationText with
  | none => s
  | some d =>
      { s with tasks := s.tasks ++
          [{ title := title, description := desc, duration := d,
             language := (languages.get? s.currentLanguage).getD "",
             status := "Not Started" }] }

/-- `PomodoroApp.start_timer` (lines 159-173): return if the task list is
empty; return if the current timer exists and is alive; otherwise start a new
`TimerThread` on the last task's duration and set that task's status to
"In Progress". -/
def start_timer (s : AppState) : AppState :=
  match s.tasks.getLast? with
  | none => s
  | some last =>
      if timerAlive s = true then s
      else
        { s with timer := some (TimerThread.init last.duration),
                 tasks := setLastStatus s.tasks "In Progress" }

/-- `PomodoroApp.pause_timer` (lines 175-177): if a timer object exists, set
its stop event; nothing else changes. -/
def pause_timer (s : AppState) : AppState :=
  match s.timer with
  | none => s
  | some t => { s with timer := some { t with stopRequested := true } }

/-- `PomodoroApp.stop_timer` (lines 179-182): if a timer object exists, set
its stop event and draw `display_timer(0)`; nothing else changes. -/
def stop_timer (s : AppState) : AppState :=
  match s.timer with
  | none => s
  | some t =>
      { s with timer := some { t with stopRequested := true },
               lastDisplayed := some 0 }

/-- One iteration of the while loop of `TimerThread.run` (lines 24-27), as
one scheduling step: enabled when the thread is alive, the stop event is
unset and `remaining > 0`; it delivers `callback(remaining)` (which is
`display_timer`) and decrements `remaining`. -/
def clockTickEv (s : AppState) : AppState :=
  match s.timer with
  | none => s
  | some t =>
      if t.alive = true ∧ t.stopRequested = false ∧ 0 < t.remaining then
        { s with lastDisplayed := some t.remaining,
                 timer := some { t with remaining := t.remaining - 1 } }
      else s

/-- Loop exit of `TimerThread.run` (lines 29-30) and thread termination:
enabled when the thread is alive and the loop condition fails
(`remaining ≤ 0` or the stop event is set); delivers the final
`callback(0)` only when the stop event is unset, then the thread dies. -/
def clockFinishEv (s : AppState) : AppState :=
  match s.timer with
  | none => s
  | some t =>
      if t.alive = true ∧ (t.remaining ≤ 0 ∨ t.stopRequested = true) then
        if t.stopRequested = true then
          { s with timer := some { t with alive := false } }
        else
          { s with lastDisplayed := some 0,
                   timer := some { t with alive := false } }
      else s

/-- Events of the session: one key handled by the `run` loop, or one
scheduling step of the timer thread. `keyEnter` carries the three strings
`add_task` would read interactively (ignored on other menu entries). -/
inductive Ev where
  | keyUp
  | keyDown
  | keyEnter (title desc durationText : String)
  | keyQ
  | keyL
  | keyOther
  | tick
  | finish
deriving DecidableEq

/-- One turn of the `PomodoroApp.run` loop (lines 267-294) for key events,
or one scheduling step of the timer thread. The second component is the exit
flag: `true` models `break`. `View Tasks` has no handler in the loop and
`Visualize Data` only reads the filesystem and draws, so both leave the
session state unchanged. -/
def handleEv (s : AppState) (e : Ev) : AppState × Bool :=
  match e with
  | .keyUp =>
      if 0 < s.currentOption then
        ({ s with currentOption := s.currentOption - 1 }, false)
      else (s, false)
  | .keyDown =>
      if s.currentOption < menuOptions.length - 1 then
        ({ s with currentOption := s.currentOption + 1 }, false)
      else (s, false)
  | .keyEnter title desc durationText =>
      if menuOptions.get? s.currentOption = some "Exit" then (s, true)
      else if menuOptions.get? s.currentOption = some "Add Task" then
        (add_task s title desc durationText, false)
      else if menuOptions.get? s.currentOption = some "Start Timer" then
        (start_timer s, false)
      else if menuOptions.get? s.currentOption = some "Pause Timer" then
        (pause_timer s, false)
      else if menuOptions.get? s.currentOption = some "Stop Timer" then
        (stop_timer s, false)
      else (s, false)
  | .keyQ => (s, true)
  | .keyL =>
      ({ s with currentLanguage := (s.currentLanguage + 1) % languages.length },
       false)
  | .keyOther => (s, false)
  | .tick => (clockTickEv s, false)
  | .finish => (clockFinishEv s, false)

/-- Run a sequence of events from a state (the exit flag is not consumed;
the sequences used below never continue past an exit). -/
def runAll (s : AppState) (evs : List Ev) : AppState :=
  evs.foldl (fun st e => (handleEv st e).1) s

example : pyInt "25" = some 25 := by decide
example : pyInt "0" = some 0 := by decide
example : pyInt "-3" = some (-3) := by decide
example : pyInt "abc" = none := by decide
example : pyInt "" = none := by decide
example : pyInt " 12 " = some 12 := by decide
example : pyInt "2.5" = none := by decide

/-- Whether the stop event is already set when atomic action `i` of
`TimerThread.run` executes: `stop()` was called (and returned) just before
action number `s` ran. -/
def stopSeen : Option Nat → Nat → Bool
  | none, _ => false
  | some s, i => decide (s ≤ i)

/-- Fine-grained model of `TimerThread.run` (lines 22-30), recording the
`callback` invocations together with the atomic action number at which each
executes. Action numbering for the upcoming loop check at index `i`: `i` is
the while condition, `i + 1` the `callback(remaining)`, `i + 2` the
`time.sleep(1)`, `i + 3` the decrement; on loop exit, `i + 1` is the final
`if not self._stop_event.is_set()` check and `i + 2` the `callback(0)`. -/
def clockLoop (r : Int) (i : Nat) (stopAt : Option Nat) : List (Nat × Int) :=
  if h : 0 < r ∧ stopSeen stopAt i = false then
    (i + 1, r) :: clockLoop (r - 1) (i + 4) stopAt
  else if stopSeen stopAt (i + 1) = false then
    [(i + 2, 0)]
  else
    []
termination_by r.toNat
decreasing_by
  obtain ⟨h1, -⟩ := h
  omega

/-- A whole run of `TimerThread.run` starting from `remaining = d` seconds,
with the stop event set just before atomic action `stopAt` (never set when
`stopAt = none`). Returns the delivered ticks as (action number, value). -/
def clockRun (d : Int) (stopAt : Option Nat) : List (Nat × Int) :=
  clockLoop d 0 stopAt

/-- One row written by `save_to_csv` (lines 194-203) and read back by
`pd.read_csv` in `visualize_data`. -/
structure TaskRecord where
  tanggal : String
  judul : String
  deskripsi : String
  durasi : Int
  bahasa : String
  status : String
deriving DecidableEq

/-- A directory entry at day level: `parsed = some rows` models a file whose
`pd.read_csv` and date conversion succeed; `parsed = none` models a file
whose read raises (caught by the inner `except Exception: continue`). -/
structure FileNode where
  name : String
  parsed : Option (List TaskRecord)
deriving DecidableEq

/-- A day-level entry of a month directory (non-directories are skipped by
the `os.path.isdir` test). -/
structure DayEntry where
  name : String
  isDir : Bool
  files : List FileNode
deriving DecidableEq

/-- A month-level entry of the year directory. -/
structure MonthEntry where
  name : String
  isDir : Bool
  days : List DayEntry
deriving DecidableEq

/-- The year directory tree: `months = none` models
`not os.path.exists(year_folder)`. -/
structure YearFS where
  months : Option (List MonthEntry)
deriving DecidableEq

/-- Model of Python `str.endswith`: a suffix test on the character
sequences. -/
def endswith (s suffix : String) : Bool :=
  suffix.data.isSuffixOf s.data

/-- The file loop of one day directory (lines 224-232): a file contributes
to `all_tasks_data` iff its name ends in "_tasks.csv" and the read succeeds;
a raised read is caught and skipped (`continue`). -/
def collectFilesD : List FileNode → List (List TaskRecord)
  | [] => []
  | f :: fs =>
      if endswith f.name "_tasks.csv" = true then
        match f.parsed with
        | some df => df :: collectFilesD fs
        | none => collectFilesD fs
      else collectFilesD fs

/-- The day loop (lines 221-232). -/
def collectDays (days : List DayEntry) : List (List TaskRecord) :=
  days.flatMap (fun d => if d.isDir = true then collectFilesD d.files else [])

/-- The month loop (lines 218-232): `all_tasks_data` at line 234. -/
def collectTasks (months : List MonthEntry) : List (List TaskRecord) :=
  months.flatMap (fun m => if m.isDir = true then collectDays m.days else [])

/-- Observable outcome of `visualize_data`: the saved artifact (with the
concatenated data it plots) if any, and the error message drawn by the outer
`except` branch if any. -/
structure VizOutcome where
  artifact : Option (List TaskRecord)
  errorMsg : Option String
deriving DecidableEq

/-- `PomodoroApp.visualize_data` (lines 208-265): missing year directory is
an early return; unreadable files were already skipped per-file by
`collectTasks`; empty `all_tasks_data` is an early return; otherwise the
concatenated frame is plotted and saved. The outer `except` is reachable
only through operating-system failures outside this model, so `errorMsg` is
`none` on every modelled path. -/
def visualize_data (fs : YearFS) : VizOutcome :=
  match fs.months with
  | none => { artifact := none, errorMsg := none }
  | some months =>
      let all := collectTasks months
      if all.isEmpty = true then { artifact := none, errorMsg := none }
      else { artifact := some all.flatten, errorMsg := none }

/-- The same tree with the unreadable files removed. -/
def dropUnreadable (months : List MonthEntry) : List MonthEntry :=
  months.map (fun m =>
    { m with days := m.days.map (fun d =>
        { d with files := d.files.filter (fun f => f.parsed.isSome) }) })

/-! Basic unfolding and frame lemmas. -/

theorem runAll_append (s : AppState) (a b : List Ev) :
    runAll s (a ++ b) = runAll (runAll s a) b := by
  simp [runAll, List.foldl_append]

theorem add_task_currentOption (s : AppState) (a b c : String) :
    (add_task s a b c).currentOption = s.currentOption := by
  unfold add_task; cases pyInt c <;> rfl

theorem add_task_timer (s : AppState) (a b c : String) :
    (add_task s a b c).timer = s.timer := by
  unfold add_task; cases pyInt c <;> rfl

theorem add_task_length (s : AppState) (a b c : String) :
    (add_task s a b c).tasks.length =
      s.tasks.length + (if (pyInt c).isSome then 1 else 0) := by
  unfold add_task; cases pyInt c <;> simp

theorem start_timer_currentOption (s : AppState) :
    (start_timer s).currentOption = s.currentOption := by
  unfold start_timer
  split
  · rfl
  · split <;> rfl

theorem pause_timer_tasks (s : AppState) :
    (pause_timer s).tasks = s.tasks := by
  unfold pause_timer; cases s.timer <;> rfl

theorem pause_timer_currentOption (s : AppState) :
    (pause_timer s).currentOption = s.currentOption := by
  unfold pause_timer; cases s.timer <;> rfl

theorem stop_timer_tasks (s : AppState) :
    (stop_timer s).tasks = s.tasks := by
  unfold stop_timer; cases s.timer <;> rfl

theorem stop_timer_currentOption (s : AppState) :
    (stop_timer s).currentOption = s.currentOption := by
  unfold stop_timer; cases s.timer <;> rfl

theorem clockTickEv_tasks (s : AppState) :
    (clockTickEv s).tasks = s.tasks := by
  unfold clockTickEv
  split
  · rfl
  · split <;> rfl

theorem clockTickEv_currentOption (s : AppState) :
    (clockTickEv s).currentOption = s.currentOption := by
  unfold clockTickEv
  split
  · rfl
  · split <;> rfl

theorem clockFinishEv_tasks (s : AppState) :
    (clockFinishEv s).tasks = s.tasks := by
  unfold clockFinishEv
  split
  · rfl
  · split
    · split <;> rfl
    · rfl

theorem clockFinishEv_currentOption (s : AppState) :
    (clockFinishEv s).currentOption = s.currentOption := by
  unfold clockFinishEv
  split
  · rfl
  · split
    · split <;> rfl
    · rfl

/-! Counting "In Progress" statuses. -/

theorem countP_setLastStatus (ts : List Task) :
    ts.countP (fun t => t.status == "In Progress") ≤
      (setLastStatus ts "In Progress").countP (fun t => t.status == "In Progress") ∧
    (setLastStatus ts "In Progress").countP (fun t => t.status == "In Progress") ≤
      ts.countP (fun t => t.status == "In Progress") + 1 := by
  induction ts with
  | nil => simp [setLastStatus]
  | cons t ts ih =>
    cases ts with
    | nil =>
      have hs : setLastStatus [t] "In Progress" = [{ t with status := "In Progress" }] :=
        rfl
      rw [hs]
      simp only [List.countP_cons, List.countP_nil]
      constructor
      · split <;> simp
      · split <;> simp
    | cons u us =>
      have hs : setLastStatus (t :: u :: us) "In Progress" =
          t :: setLastStatus (u :: us) "In Progress" := rfl
      rw [hs]
      simp only [List.countP_cons] at ih ⊢
      obtain ⟨ih1, ih2⟩ := ih
      omega

theorem countInProgress_add_task (s : AppState) (a b c : String) :
    countInProgress (add_task s a b c) = countInProgress s := by
  unfold add_task countInProgress
  cases hp : pyInt c with
  | none => rfl
  | some d => simp [List.countP_append]

theorem countInProgress_start_timer (s : AppState) :
    countInProgress s ≤ countInProgress (start_timer s) ∧
    countInProgress (start_timer s) ≤ countInProgress s + 1 := by
  unfold start_timer countInProgress
  split
  · omega
  · split
    · omega
    · exact countP_setLastStatus s.tasks

theorem countInProgress_pause_timer (s : AppState) :
    countInProgress (pause_timer s) = countInProgress s := by
  unfold countInProgress
  rw [pause_timer_tasks]

theorem countInProgress_stop_timer (s : AppState) :
    countInProgress (stop_timer s) = countInProgress s := by
  unfold countInProgress
  rw [stop_timer_tasks]

theorem countInProgress_clockTickEv (s : AppState) :
    countInProgress (clockTickEv s) = countInProgress s := by
  unfold countInProgress
  rw [clockTickEv_tasks]

theorem countInProgress_clockFinishEv (s : AppState) :
    countInProgress (clockFinishEv s) = countInProgress s := by
  unfold countInProgress
  rw [clockFinishEv_tasks]

/-! Iterated ticks of a running timer. -/

theorem runAll_replicate_tick (k : Nat) :
    ∀ (s : AppState) (t : TimerThread), s.timer = some t → t.alive = true →
      t.stopRequested = false → (k : Int) ≤ t.remaining →
      (runAll s (List.replicate k Ev.tick)).tasks = s.tasks ∧
      (runAll s (List.replicate k Ev.tick)).timer =
        some { t with remaining := t.remaining - k } := by
  induction k with
  | zero =>
    intro s t hst _ _ _
    refine ⟨rfl, ?_⟩
    show s.timer = _
    rw [hst]
    simp
  | succ k ih =>
    intro s t hst ha hsr hk
    have hrep : List.replicate (k + 1) Ev.tick = Ev.tick :: List.replicate k Ev.tick :=
      rfl
    have hpos : 0 < t.remaining := by
      have : ((k : Int) + 1) ≤ t.remaining := by push_cast at hk; omega
      omega
    have hstep : (handleEv s Ev.tick).1 =
        { s with lastDisplayed := some t.remaining,
                 timer := some { t with remaining := t.remaining - 1 } } := by
      show clockTickEv s = _
      unfold clockTickEv
      rw [hst]
      dsimp only
      rw [if_pos ⟨ha, hsr, hpos⟩]
    have hcons : runAll s (Ev.tick :: List.replicate k Ev.tick) =
        runAll (handleEv s Ev.tick).1 (List.replicate k Ev.tick) := rfl
    rw [hrep, hcons, hstep]
    have hk2 : (k : Int) ≤ t.remaining - 1 := by push_cast at hk; omega
    obtain ⟨h1, h2⟩ :=
      ih { s with lastDisplayed := some t.remaining,
                  timer := some { t with remaining := t.remaining - 1 } }
        { t with remaining := t.remaining - 1 } rfl ha hsr hk2
    refine ⟨h1, ?_⟩
    rw [h2]
    dsimp only
    simp only [Option.some.injEq, TimerThread.mk.injEq, true_and, and_true]
    push_cast
    omega

/-! Lemmas about the fine-grained clock model. -/

theorem clockLoop_eq (r : Int) (i : Nat) (stopAt : Option Nat) :
    clockLoop r i stopAt =
      if 0 < r ∧ stopSeen stopAt i = false then
        (i + 1, r) :: clockLoop (r - 1) (i + 4) stopAt
      else if stopSeen stopAt (i + 1) = false then
        [(i + 2, 0)]
      else
        [] := by
  rw [clockLoop]
  split
  · rfl
  · rfl

/-- Once the stop event is set at or before the upcoming loop check, the run
delivers nothing further. -/
theorem clockLoop_stopped (r : Int) (i s : Nat) (h : s ≤ i) :
    clockLoop r i (some s) = [] := by
  rw [clockLoop_eq]
  rw [if_neg]
  · rw [if_neg]
    simp [stopSeen]
    omega
  · intro hc
    have := hc.2
    simp [stopSeen] at this
    omega

/-- At most one callback executes at or after the moment the stop event is
set: the one whose guard check had already passed. -/
theorem clockLoop_stray (n : Nat) :
    ∀ (r : Int) (i s : Nat), r.toNat ≤ n →
      ((clockLoop r i (some s)).filter (fun p => decide (s ≤ p.1))).length ≤ 1 := by
  induction n with
  | zero =>
    intro r i s hr
    rw [clockLoop_eq]
    rw [if_neg (by intro hc; omega)]
    split
    · simp [List.filter]
      split <;> simp
    · simp
  | succ n ih =>
    intro r i s hr
    rw [clockLoop_eq]
    by_cases hc : 0 < r ∧ stopSeen (some s) i = false
    · rw [if_pos hc]
      have hi : i < s := by
        have := hc.2
        simp [stopSeen] at this
        omega
      by_cases hs1 : s ≤ i + 1
      · rw [clockLoop_stopped (r - 1) (i + 4) s (by omega)]
        simp [List.filter, hs1]
      · simp only [List.filter_cons]
        rw [if_neg (by simp [hs1])]
        exact ih (r - 1) (i + 4) s (by omega)
    · rw [if_neg hc]
      split
      · simp [List.filter]
        split <;> simp
      · simp

/-- With the stop event never set, the value 0 is delivered exactly once
(this also covers a non-positive duration: an immediate single zero-tick). -/
theorem clockLoop_zero_count (n : Nat) :
    ∀ (r : Int) (i : Nat), r.toNat ≤ n →
      (((clockLoop r i none).map Prod.snd).count 0) = 1 := by
  induction n with
  | zero =>
    intro r i hr
    rw [clockLoop_eq]
    rw [if_neg (by intro hc; omega)]
    simp [stopSeen]
  | succ n ih =>
    intro r i hr
    rw [clockLoop_eq]
    by_cases hc : 0 < r
    · rw [if_pos ⟨hc, rfl⟩]
      simp only [List.map_cons, List.count_cons]
      rw [ih (r - 1) (i + 4) (by omega)]
      simp
      omega
    · rw [if_neg (by intro h; exact hc h.1)]
      simp [stopSeen]

/-! Claim C1. -/

/-- Claim C1 is refuted: a reachable key sequence puts two tasks in status
"In Progress" at once. Through the real menu the user adds task A, starts the
timer (A becomes "In Progress"), stops it, the timer thread dies, then adds
task B and starts the timer again: the aliveness guard of `start_timer`
passes because the old thread is dead, B becomes "In Progress", and the
status of A was never reset. -/
theorem cex_C1 :
    ¬ (countInProgress (runAll initState
        [Ev.keyEnter "A" "a" "1", Ev.keyDown, Ev.keyEnter "" "" "",
         Ev.keyDown, Ev.keyDown, Ev.keyEnter "" "" "", Ev.finish,
         Ev.keyUp, Ev.keyUp, Ev.keyUp,
         Ev.keyEnter "B" "b" "1", Ev.keyDown, Ev.keyEnter "" "" ""]) ≤ 1) := by
  decide

/-- Claim C1 as amended: no single command makes more than one task newly
"In Progress", and no command ever takes a task out of "In Progress" (the
program never resets a status), so the count of "In Progress" tasks is
non-decreasing and can exceed one across a session — the at-most-one
invariant claimed by the spec does not hold. -/
theorem thm_C1 (s : AppState) (e : Ev) :
    countInProgress s ≤ countInProgress (handleEv s e).1 ∧
    countInProgress (handleEv s e).1 ≤ countInProgress s + 1 := by
  cases e with
  | keyUp =>
    have h : countInProgress (handleEv s Ev.keyUp).1 = countInProgress s := by
      unfold handleEv
      dsimp only
      split <;> rfl
    omega
  | keyDown =>
    have h : countInProgress (handleEv s Ev.keyDown).1 = countInProgress s := by
      unfold handleEv
      dsimp only
      split <;> rfl
    omega
  | keyEnter a b c =>
    unfold handleEv
    dsimp only
    split_ifs <;> dsimp only
    · omega
    · have h := countInProgress_add_task s a b c
      omega
    · have h := countInProgress_start_timer s
      omega
    · have h := countInProgress_pause_timer s
      omega
    · have h := countInProgress_stop_timer s
      omega
    · omega
  | keyQ =>
    have h : countInProgress (handleEv s Ev.keyQ).1 = countInProgress s := rfl
    omega
  | keyL =>
    have h : countInProgress (handleEv s Ev.keyL).1 = countInProgress s := rfl
    omega
  | keyOther =>
    have h : countInProgress (handleEv s Ev.keyOther).1 = countInProgress s := rfl
    omega
  | tick =>
    have h2 : (handleEv s Ev.tick).1 = clockTickEv s := rfl
    have h := countInProgress_clockTickEv s
    rw [h2]
    omega
  | finish =>
    have h2 : (handleEv s Ev.finish).1 = clockFinishEv s := rfl
    have h := countInProgress_clockFinishEv s
    rw [h2]
    omega

/-! Claim C2. -/

/-- Loop exit of the timer thread on natural expiry: the stop event is unset
and `remaining ≤ 0`, so the final `callback(0)` is delivered and the thread
dies. -/
theorem clockFinishEv_expired (s : AppState) (t : TimerThread)
    (hst : s.timer = some t) (ha : t.alive = true) (hsr : t.stopRequested = false)
    (hr : t.remaining ≤ 0) :
    clockFinishEv s =
      { s with lastDisplayed := some 0, timer := some { t with alive := false } } := by
  unfold clockFinishEv
  rw [hst]
  dsimp only
  rw [if_pos ⟨ha, Or.inl hr⟩]
  rw [if_neg (by simp [hsr])]

/-- Claim C2 is refuted: Scenario C run through the real menu — add the task
"Write parser" with duration 25, start the timer, let all 1500 ticks pass and
let the thread deliver its final `callback(0)` and die. The task's status is
still "In Progress", not "Completed": the callback is `display_timer`, which
only redraws, and no code path ever assigns "Completed" (there is no phase
field at all). -/
theorem cex_C2 :
    (runAll initState
        ([Ev.keyEnter "Write parser" "impl" "25", Ev.keyDown, Ev.keyEnter "" "" ""] ++
          List.replicate 1500 Ev.tick ++ [Ev.finish])).tasks.map
        (fun t => t.status) = ["In Progress"] ∧
    ("In Progress" : String) ≠ "Completed" := by
  constructor
  · rw [runAll_append, runAll_append]
    obtain ⟨ht, -⟩ := runAll_replicate_tick 1500
      (runAll initState
        [Ev.keyEnter "Write parser" "impl" "25", Ev.keyDown, Ev.keyEnter "" "" ""])
      { duration := 1500, stopRequested := false, remaining := 1500, alive := true }
      (by decide) rfl rfl (by decide)
    have hfin : ∀ u : AppState, runAll u [Ev.finish] = clockFinishEv u := fun _ => rfl
    rw [hfin, clockFinishEv_tasks, ht]
    decide
  · decide

/-- Claim C2 as amended: when a running, unstopped timer counts down to 0 and
the thread finishes (natural expiry), the final `callback(0)` is delivered —
the displayed remaining time becomes 0 — and the thread dies with
`remaining = 0`; the task list (and so every status) is unchanged, because
the code never assigns "Completed" and has no phase field. -/
theorem thm_C2 (s : AppState) (t : TimerThread)
    (hst : s.timer = some t) (ha : t.alive = true) (hsr : t.stopRequested = false)
    (hr : 0 ≤ t.remaining) :
    (runAll s (List.replicate t.remaining.toNat Ev.tick ++ [Ev.finish])).tasks =
      s.tasks ∧
    (runAll s (List.replicate t.remaining.toNat Ev.tick ++ [Ev.finish])).timer =
      some { t with remaining := 0, alive := false } ∧
    (runAll s (List.replicate t.remaining.toNat Ev.tick ++ [Ev.finish])).lastDisplayed =
      some 0 := by
  obtain ⟨h1, h2⟩ := runAll_replicate_tick t.remaining.toNat s t hst ha hsr (by omega)
  rw [runAll_append]
  have hfin : ∀ u : AppState, runAll u [Ev.finish] = clockFinishEv u := fun _ => rfl
  rw [hfin]
  have hrem : t.remaining - (t.remaining.toNat : Int) = 0 := by omega
  have h2a : (runAll s (List.replicate t.remaining.toNat Ev.tick)).timer =
      some { t with remaining := 0 } := by
    rw [h2, hrem]
  have hexp := clockFinishEv_expired
    (runAll s (List.replicate t.remaining.toNat Ev.tick))
    { t with remaining := 0 } h2a ha hsr (le_refl 0)
  rw [hexp]
  exact ⟨h1, rfl, rfl⟩

/-- Concrete state for the C2 witness: one alive timer with one second left. -/
def witState2 : AppState :=
  { tasks := [], currentOption := 0, currentLanguage := 0, lastDisplayed := none,
    timer := some { duration := 60, stopRequested := false, remaining := 1,
                    alive := true } }

/-- The timer object of `witState2`. -/
def witTimer2 : TimerThread :=
  { duration := 60, stopRequested := false, remaining := 1, alive := true }

/-- Witness for C2 at a one-second timer. -/
theorem wit_C2 :
    witState2.timer = some witTimer2 ∧ witTimer2.alive = true ∧
    witTimer2.stopRequested = false ∧ 0 ≤ witTimer2.remaining ∧
    ((runAll witState2 (List.replicate witTimer2.remaining.toNat Ev.tick ++
        [Ev.finish])).tasks = witState2.tasks ∧
     (runAll witState2 (List.replicate witTimer2.remaining.toNat Ev.tick ++
        [Ev.finish])).timer = some { witTimer2 with remaining := 0, alive := false } ∧
     (runAll witState2 (List.replicate witTimer2.remaining.toNat Ev.tick ++
        [Ev.finish])).lastDisplayed = some 0) :=
  ⟨rfl, rfl, rfl, by decide, thm_C2 witState2 witTimer2 rfl rfl rfl (by decide)⟩

/-! Claim C3. -/

/-- Claim C3 is refuted: Scenario D run through the real menu — add a
25-minute task, start, 10 ticks, then Stop Timer. The task's status is still
"In Progress", not "Stopped": `stop_timer` only sets the stop event and draws
0; no code path assigns "Stopped" and there is no phase field. -/
theorem cex_C3 :
    (runAll initState
        ([Ev.keyEnter "Write parser" "impl" "25", Ev.keyDown, Ev.keyEnter "" "" ""] ++
          List.replicate 10 Ev.tick ++
          [Ev.keyDown, Ev.keyDown, Ev.keyEnter "" "" ""])).tasks.map
        (fun t => t.status) = ["In Progress"] ∧
    ("In Progress" : String) ≠ "Stopped" := by decide

/-- Claim C3 as amended: whenever a timer object exists (in any phase, alive
or dead), Stop Timer sets its stop event — so an alive Clock halts at its
next check — and draws remaining 0 on the display; everything else,
including every task status and the thread's internal countdown, is
unchanged, and with no timer object it is a no-op. -/
theorem thm_C3 :
    (∀ (s : AppState) (t : TimerThread), s.timer = some t →
        stop_timer s = { s with timer := some { t with stopRequested := true },
                                lastDisplayed := some 0 }) ∧
    (∀ s : AppState, s.timer = none → stop_timer s = s) := by
  constructor
  · intro s t hst
    simp [stop_timer, hst]
  · intro s hst
    simp [stop_timer, hst]

/-- Concrete state for the C3 witness: an alive running timer. -/
def witState3 : AppState :=
  { tasks := [], currentOption := 0, currentLanguage := 0, lastDisplayed := none,
    timer := some { duration := 60, stopRequested := false, remaining := 60,
                    alive := true } }

/-- The timer object of `witState3`. -/
def witTimer3 : TimerThread :=
  { duration := 60, stopRequested := false, remaining := 60, alive := true }

/-- Witness for C3: one state with a timer, one without. -/
theorem wit_C3 :
    (witState3.timer = some witTimer3 ∧
      stop_timer witState3 =
        { witState3 with timer := some { witTimer3 with stopRequested := true },
                         lastDisplayed := some 0 }) ∧
    (initState.timer = none ∧ stop_timer initState = initState) :=
  ⟨⟨rfl, thm_C3.1 witState3 witTimer3 rfl⟩, ⟨rfl, thm_C3.2 initState rfl⟩⟩

/-! Claim C4. -/

/-- Claim C4 is refuted: the duration text "0" is not a positive integer, yet
Add Task appends a task (with duration 0). `add_task` only catches the
ValueError of `int(...)`; it never checks positivity. -/
theorem cex_C4 :
    (add_task initState "T" "D" "0").tasks.length = 1 ∧
    (add_task initState "T" "D" "0").tasks.map (fun t => t.duration) = [0] ∧
    ¬ (0 < (0 : Int)) := by decide

/-- Claim C4 as amended: a task is appended iff the duration text parses as
an integer — any sign, so non-positive values such as "0" or "-5" are
accepted; only a parse failure (ValueError) discards the input. After any
sequence of Add Task commands the task-list length equals its old length
plus the number of inputs whose duration text parses. -/
theorem thm_C4 (s : AppState) (inputs : List (String × String × String)) :
    (inputs.foldl (fun st i => add_task st i.1 i.2.1 i.2.2) s).tasks.length =
      s.tasks.length + inputs.countP (fun i => (pyInt i.2.2).isSome) := by
  induction inputs generalizing s with
  | nil => simp
  | cons i is ih =>
    rw [List.foldl_cons, ih, add_task_length, List.countP_cons]
    omega

/-! Claim C5. -/

/-- Claim C5 is refuted: in the run of a 1-second clock, let `stop()` be
called (and return) between the loop-condition check and the callback, i.e.
just before atomic action 1. The tick at action 1 is still delivered, so a
callback runs at an action number not before the stop: checking a flag
before each cycle does not make check-then-callback atomic. -/
theorem cex_C5 : ¬ (∀ p ∈ clockRun 1 (some 1), p.1 < 1) := by
  have h : clockRun 1 (some 1) = [(1, 1)] := by
    unfold clockRun
    rw [clockLoop_eq]
    rw [if_pos (by decide)]
    rw [clockLoop_stopped (1 - 1) (0 + 4) 1 (by omega)]
  intro hall
  have := hall (1, 1) (by simp [h])
  omega

/-- Claim C5 as amended: after `stop()` returns, at most one further
`on_tick` can execute (one whose loop check had already passed — the stray
tick the spec's concurrency section itself concedes); with no stop, the
final tick with value 0 is delivered exactly once (also for non-positive
durations); and a stop that precedes the whole run suppresses every tick,
including the final one. -/
theorem thm_C5 :
    (∀ (d : Int) (s : Nat),
        ((clockRun d (some s)).filter (fun p => decide (s ≤ p.1))).length ≤ 1) ∧
    (∀ d : Int, ((clockRun d none).map Prod.snd).count 0 = 1) ∧
    (∀ d : Int, clockRun d (some 0) = []) := by
  refine ⟨?_, ?_, ?_⟩
  · intro d s
    exact clockLoop_stray d.toNat d 0 s (le_refl _)
  · intro d
    exact clockLoop_zero_count d.toNat d 0 (le_refl _)
  · intro d
    exact clockLoop_stopped d 0 0 (le_refl 0)

/-! Claim C6. -/

/-- Reachable through the menu: add task A (1 minute), start the timer, stop
it, and let the thread die. Task A keeps status "In Progress" and the timer
object is dead. -/
def cexSeq6 : List Ev :=
  [Ev.keyEnter "A" "a" "1", Ev.keyDown, Ev.keyEnter "" "" "",
   Ev.keyDown, Ev.keyDown, Ev.keyEnter "" "" "", Ev.finish]

/-- Claim C6 is refuted: in the reachable state after `cexSeq6` a task has
status "In Progress", yet Start Timer is not a no-op — the aliveness guard
passes because the old thread is dead, and a new, alive Clock is started. -/
theorem cex_C6 :
    countInProgress (runAll initState cexSeq6) = 1 ∧
    ((runAll initState cexSeq6).timer.map (fun t => t.alive)) = some false ∧
    ((start_timer (runAll initState cexSeq6)).timer.map (fun t => t.alive)) =
      some true := by
  decide

/-- Claim C6 as amended: Start Timer is a no-op exactly when the current
timer thread is alive, or when the task list is empty — the guard tests
`current_timer.is_alive()`, not any task's status, so an "In Progress" task
alone does not block it. -/
theorem thm_C6 (s : AppState) :
    (timerAlive s = true → start_timer s = s) ∧
    (s.tasks = [] → start_timer s = s) := by
  constructor
  · intro h
    unfold start_timer
    split
    · rfl
    · rw [if_pos h]
  · intro h
    simp [start_timer, h]

/-- Concrete state for the C6 witness: an alive timer. -/
def witState6 : AppState :=
  { tasks := [{ title := "A", description := "a", duration := 1,
                language := "Python", status := "In Progress" }],
    timer := some { duration := 60, stopRequested := false, remaining := 60,
                    alive := true },
    currentOption := 0, currentLanguage := 0, lastDisplayed := none }

/-- Witness for C6: an alive-timer state and the empty initial state. -/
theorem wit_C6 :
    (timerAlive witState6 = true ∧ start_timer witState6 = witState6) ∧
    (initState.tasks = [] ∧ start_timer initState = initState) :=
  ⟨⟨rfl, (thm_C6 witState6).1 rfl⟩, ⟨rfl, (thm_C6 initState).2 rfl⟩⟩

/-! Claim C7. -/

/-- Reachable through the menu: add task A (1 minute) and start the timer,
so a Clock is alive. -/
def cexSeq7 : List Ev :=
  [Ev.keyEnter "A" "a" "1", Ev.keyDown, Ev.keyEnter "" "" ""]

/-- Claim C7 is refuted: with a Clock alive, the q key exits the session
loop, yet the Clock's stop event is still unset and the thread still alive —
no teardown happens on exit (the non-daemon thread keeps the process alive
until its own countdown ends). -/
theorem cex_C7 :
    (handleEv (runAll initState cexSeq7) Ev.keyQ).2 = true ∧
    ((handleEv (runAll initState cexSeq7) Ev.keyQ).1.timer.map
      (fun t => t.stopRequested)) = some false ∧
    ((handleEv (runAll initState cexSeq7) Ev.keyQ).1.timer.map
      (fun t => t.alive)) = some true := by
  decide

/-- Claim C7 as amended: both the menu Exit entry and the q key terminate the
session loop immediately with the whole state — including any running
Clock — untouched: no stop signal is sent on either exit path. -/
theorem thm_C7 :
    (∀ (s : AppState) (a b c : String),
        menuOptions.get? s.currentOption = some "Exit" →
        handleEv s (Ev.keyEnter a b c) = (s, true)) ∧
    (∀ s : AppState, handleEv s Ev.keyQ = (s, true)) := by
  constructor
  · intro s a b c h
    unfold handleEv
    dsimp only
    rw [if_pos h]
  · intro s
    rfl

/-- Witness for C7: the Exit menu entry at index 6, and the q key. -/
theorem wit_C7 :
    (menuOptions.get? ({ initState with currentOption := 6 } : AppState).currentOption =
        some "Exit" ∧
      handleEv { initState with currentOption := 6 } (Ev.keyEnter "" "" "") =
        ({ initState with currentOption := 6 }, true)) ∧
    handleEv initState Ev.keyQ = (initState, true) :=
  ⟨⟨rfl, thm_C7.1 { initState with currentOption := 6 } "" "" "" rfl⟩,
   thm_C7.2 initState⟩

/-! Claim C8. -/

/-- Claim C8 is confirmed: the menu cursor stays within
[0, option_count - 1], Navigate Up at 0 and Navigate Down at the last entry
leave the whole state unchanged (clamping, no wrap-around), and no event
other than the two navigation keys ever changes the cursor. -/
theorem thm_C8 (s : AppState) (e : Ev) :
    (s.currentOption ≤ menuOptions.length - 1 →
      (handleEv s e).1.currentOption ≤ menuOptions.length - 1) ∧
    (s.currentOption = 0 → e = Ev.keyUp → (handleEv s e).1 = s) ∧
    (s.currentOption = menuOptions.length - 1 → e = Ev.keyDown →
      (handleEv s e).1 = s) ∧
    (e ≠ Ev.keyUp → e ≠ Ev.keyDown →
      (handleEv s e).1.currentOption = s.currentOption) := by
  cases e with
  | keyUp =>
    refine ⟨?_, ?_, ?_, ?_⟩
    · intro h
      unfold handleEv
      dsimp only
      split
      · dsimp only
        omega
      · exact h
    · intro h0 _
      unfold handleEv
      dsimp only
      rw [if_neg (by omega)]
    · intro _ he
      exact Ev.noConfusion he
    · intro hne _
      exact absurd rfl hne
  | keyDown =>
    refine ⟨?_, ?_, ?_, ?_⟩
    · intro h
      unfold handleEv
      dsimp only
      split
      · dsimp only
        omega
      · exact h
    · intro _ he
      exact Ev.noConfusion he
    · intro h6 _
      unfold handleEv
      dsimp only
      rw [if_neg (by omega)]
    · intro _ hne
      exact absurd rfl hne
  | keyEnter a b c =>
    have hopt : (handleEv s (Ev.keyEnter a b c)).1.currentOption = s.currentOption := by
      unfold handleEv
      dsimp only
      split_ifs
      · rfl
      · exact add_task_currentOption s a b c
      · exact start_timer_currentOption s
      · exact pause_timer_currentOption s
      · exact stop_timer_currentOption s
      · rfl
    exact ⟨fun h => by rw [hopt]; exact h, fun _ he => Ev.noConfusion he,
           fun _ he => Ev.noConfusion he, fun _ _ => hopt⟩
  | keyQ =>
    exact ⟨fun h => h, fun _ he => Ev.noConfusion he, fun _ he => Ev.noConfusion he,
           fun _ _ => rfl⟩
  | keyL =>
    exact ⟨fun h => h, fun _ he => Ev.noConfusion he, fun _ he => Ev.noConfusion he,
           fun _ _ => rfl⟩
  | keyOther =>
    exact ⟨fun h => h, fun _ he => Ev.noConfusion he, fun _ he => Ev.noConfusion he,
           fun _ _ => rfl⟩
  | tick =>
    have hopt : (handleEv s Ev.tick).1.currentOption = s.currentOption :=
      clockTickEv_currentOption s
    exact ⟨fun h => by rw [hopt]; exact h, fun _ he => Ev.noConfusion he,
           fun _ he => Ev.noConfusion he, fun _ _ => hopt⟩
  | finish =>
    have hopt : (handleEv s Ev.finish).1.currentOption = s.currentOption :=
      clockFinishEv_currentOption s
    exact ⟨fun h => by rw [hopt]; exact h, fun _ he => Ev.noConfusion he,
           fun _ he => Ev.noConfusion he, fun _ _ => hopt⟩

/-- Witness for C8: the bound and clamps at the initial state (cursor 0) and
at cursor 6, plus the language key as a non-navigation event. -/
theorem wit_C8 :
    (initState.currentOption ≤ menuOptions.length - 1 ∧
      (handleEv initState Ev.keyUp).1.currentOption ≤ menuOptions.length - 1) ∧
    (initState.currentOption = 0 ∧ Ev.keyUp = Ev.keyUp ∧
      (handleEv initState Ev.keyUp).1 = initState) ∧
    (({ initState with currentOption := 6 } : AppState).currentOption =
        menuOptions.length - 1 ∧
      (handleEv { initState with currentOption := 6 } Ev.keyDown).1 =
        { initState with currentOption := 6 }) ∧
    (Ev.keyL ≠ Ev.keyUp ∧ Ev.keyL ≠ Ev.keyDown ∧
      (handleEv initState Ev.keyL).1.currentOption = initState.currentOption) :=
  ⟨⟨by decide, (thm_C8 initState Ev.keyUp).1 (by decide)⟩,
   ⟨rfl, rfl, (thm_C8 initState Ev.keyUp).2.1 rfl rfl⟩,
   ⟨rfl, (thm_C8 { initState with currentOption := 6 } Ev.keyDown).2.2.1 rfl rfl⟩,
   ⟨by decide, by decide, (thm_C8 initState Ev.keyL).2.2.2 (by decide) (by decide)⟩⟩

/-! Claim C9. -/

theorem collectFilesD_dropUnreadable (files : List FileNode) :
    collectFilesD (files.filter (fun f => f.parsed.isSome)) = collectFilesD files := by
  induction files with
  | nil => rfl
  | cons f fs ih =>
    cases hp : f.parsed <;> simp [List.filter_cons, hp, collectFilesD, ih]

theorem collectDays_dropUnreadable (days : List DayEntry) :
    collectDays (days.map (fun d =>
      { d with files := d.files.filter (fun f => f.parsed.isSome) })) =
      collectDays days := by
  induction days with
  | nil => rfl
  | cons d ds ih =>
    have hcons : ∀ (x : DayEntry) (xs : List DayEntry),
        collectDays (x :: xs) =
          (if x.isDir = true then collectFilesD x.files else []) ++ collectDays xs :=
      fun _ _ => rfl
    rw [List.map_cons, hcons, hcons]
    dsimp only
    rw [collectFilesD_dropUnreadable d.files, ih]

theorem collectTasks_dropUnreadable (months : List MonthEntry) :
    collectTasks (dropUnreadable months) = collectTasks months := by
  induction months with
  | nil => rfl
  | cons m ms ih =>
    have hcons : ∀ (x : MonthEntry) (xs : List MonthEntry),
        collectTasks (x :: xs) =
          (if x.isDir = true then collectDays x.days else []) ++ collectTasks xs :=
      fun _ _ => rfl
    unfold dropUnreadable at ih ⊢
    rw [List.map_cons, hcons, hcons]
    dsimp only
    rw [collectDays_dropUnreadable m.days, ih]

/-- Claim C9 is confirmed: a missing year directory makes `visualize_data` a
silent no-op (no artifact, no drawn error); dropping the unreadable or
malformed files from the tree does not change the aggregated data, i.e. such
files are skipped without aborting the aggregation; no modelled execution
draws an error; and when the collected data is empty — zero readable record
files — the call returns before plotting, producing no artifact and no
error. -/
theorem thm_C9 :
    (∀ fs9 : YearFS, fs9.months = none →
        visualize_data fs9 = { artifact := none, errorMsg := none }) ∧
    (∀ ms : List MonthEntry, collectTasks (dropUnreadable ms) = collectTasks ms) ∧
    (∀ fs9 : YearFS, (visualize_data fs9).errorMsg = none) ∧
    (∀ (fs9 : YearFS) (ms : List MonthEntry), fs9.months = some ms →
        collectTasks ms = [] →
        visualize_data fs9 = { artifact := none, errorMsg := none }) := by
  refine ⟨?_, collectTasks_dropUnreadable, ?_, ?_⟩
  · intro f h
    simp [visualize_data, h]
  · intro f
    cases f with
    | mk months =>
      cases months with
      | none => rfl
      | some ms =>
        unfold visualize_data
        dsimp only
        split <;> rfl
  · intro f ms h hempty
    simp [visualize_data, h, hempty]

/-- A year tree with one day directory holding one malformed record file and
one readable file that is not a record file: zero readable record files. -/
def witMonths9 : List MonthEntry :=
  [{ name := "January", isDir := true,
     days := [{ name := "3", isDir := true,
                files := [{ name := "2025-01-03_tasks.csv", parsed := none },
                          { name := "notes.txt",
                            parsed := some [{ tanggal := "2025-01-03", judul := "t",
                                              deskripsi := "d", durasi := 5,
                                              bahasa := "Python",
                                              status := "Not Started" }] }] }] }]

/-- Witness for C9: the missing-directory case and the zero-readable-files
case. -/
theorem wit_C9 :
    ((YearFS.mk none).months = none ∧
      visualize_data (YearFS.mk none) = { artifact := none, errorMsg := none }) ∧
    ((YearFS.mk (some witMonths9)).months = some witMonths9 ∧
      collectTasks witMonths9 = [] ∧
      visualize_data (YearFS.mk (some witMonths9)) =
        { artifact := none, errorMsg := none }) :=
  ⟨⟨rfl, thm_C9.1 (YearFS.mk none) rfl⟩,
   ⟨rfl, by decide,
    thm_C9.2.2.2 (YearFS.mk (some witMonths9)) witMonths9 rfl (by decide)⟩⟩

/-! Claim C10. -/

/-- Claim C10 is confirmed: a successfully added task snapshots its language
from `self.languages[self.current_language]` at Add Task time, and the l key
only advances the selector index modulo the tag-set size — task list, every
existing task (hence its language field), timer, menu cursor and display are
all unchanged, as the record update shows. -/
theorem thm_C10 :
    (∀ (s : AppState) (a b c : String) (n : Int), pyInt c = some n →
        add_task s a b c =
          { s with tasks := s.tasks ++
              [{ title := a, description := b, duration := n,
                 language := (languages.get? s.currentLanguage).getD "",
                 status := "Not Started" }] }) ∧
    (∀ s : AppState, handleEv s Ev.keyL =
        ({ s with currentLanguage := (s.currentLanguage + 1) % languages.length },
         false)) := by
  constructor
  · intro s a b c n h
    simp [add_task, h]
  · intro s
    rfl

/-- Witness for C10: adding a task with duration text "7" at the initial
state, and one press of the language key. -/
theorem wit_C10 :
    (pyInt "7" = some 7 ∧
      add_task initState "T" "D" "7" =
        { initState with tasks := initState.tasks ++
            [{ title := "T", description := "D", duration := 7,
               language := (languages.get? initState.currentLanguage).getD "",
               status := "Not Started" }] }) ∧
    handleEv initState Ev.keyL =
      ({ initState with currentLanguage := (initState.currentLanguage + 1) %
          languages.length }, false) :=
  ⟨⟨by decide, thm_C10.1 initState "T" "D" "7" 7 (by decide)⟩, thm_C10.2 initState⟩

end Pomodoro
